import Mathlib

/-!
Shallow embedding of the exercise-correction repository
(src/openrouter_client.py and src/app.py) and verification of its
specification claims.

Python's dynamically-typed values are modelled by `PyVal`; raisable
operations return `Except PyErr`.  Pure helpers (`base64`, string
methods, the JSON grammar) model the documented behaviour of the
corresponding Python standard-library calls.
-/

set_option maxRecDepth 8192

namespace ExCor

/-- Model of a Python value as passed around by the repository:
strings, ints, booleans, None, lists, and string-keyed dicts. -/
inductive PyVal where
  | vstr (s : String)
  | vint (n : Int)
  | vbool (b : Bool)
  | vnone
  | vlist (xs : List PyVal)
  | vdict (kvs : List (String × PyVal))
deriving Repr, Inhabited

/-- Model of the Python exceptions this code can raise. -/
inductive PyErr where
  | attributeError
  | typeError
  | keyError (k : String)
  | indexError
  | jsonDecodeError
  | httpError (status : Nat)
deriving Repr, DecidableEq

/-- Lookup in the association list backing a `PyVal.vdict`. -/
def dictFind (kvs : List (String × PyVal)) (k : String) : Option PyVal :=
  (kvs.find? (fun kv => kv.1 == k)).map (fun kv => kv.2)

/-- Model of Python's `d.get(k, default)`: only dicts have `.get`;
any other receiver raises `AttributeError`. -/
def pyGet (v : PyVal) (k : String) (default : PyVal) : Except PyErr PyVal :=
  match v with
  | .vdict kvs => .ok ((dictFind kvs k).getD default)
  | _ => .error .attributeError

/-- Model of Python's `d[k]` subscript on a dict: missing key raises
`KeyError`, a non-dict receiver raises `TypeError`. -/
def pySubscript (v : PyVal) (k : String) : Except PyErr PyVal :=
  match v with
  | .vdict kvs =>
    match dictFind kvs k with
    | some w => .ok w
    | none => .error (.keyError k)
  | _ => .error .typeError

/-- Model of Python's `xs[i]` on a list: out of range raises
`IndexError`, a non-list receiver raises `TypeError`. -/
def pyIndexNat (v : PyVal) (i : Nat) : Except PyErr PyVal :=
  match v with
  | .vlist xs =>
    match xs.get? i with
    | some w => .ok w
    | none => .error .indexError
  | _ => .error .typeError

/-- Model of Python iteration (as used by `for` and `enumerate`):
lists yield their elements, strings their one-character substrings,
dicts their keys; ints, booleans and None raise `TypeError`. -/
def pyIter (v : PyVal) : Except PyErr (List PyVal) :=
  match v with
  | .vlist xs => .ok xs
  | .vstr s => .ok (s.data.map (fun c => .vstr (String.mk [c])))
  | .vdict kvs => .ok (kvs.map (fun kv => .vstr kv.1))
  | _ => .error .typeError

/-- Model of requiring a `str` value (e.g. the argument of
`json.loads`, or text handed to fpdf's `multi_cell`). -/
def pyAsStr (v : PyVal) : Except PyErr String :=
  match v with
  | .vstr s => .ok s
  | _ => .error .typeError

/-- Whitespace recognised by Python's `str.strip()` with no argument
(ASCII subset; exotic Unicode whitespace is outside the inputs this
development considers). -/
def pySpace (c : Char) : Bool :=
  c == ' ' || c == '\t' || c == '\n' || c == '\r' || c == Char.ofNat 11 || c == Char.ofNat 12

/-- Model of Python's `s.strip()`. -/
def pyStrip (s : String) : String :=
  String.mk (((s.data.dropWhile pySpace).reverse.dropWhile pySpace).reverse)

/-- Model of Python's `s.lower()` (ASCII case folding; the sentinel
comparisons in the source only involve ASCII letters). -/
def pyLower (s : String) : String :=
  String.mk (s.data.map Char.toLower)

/-- Model of Python's `repr` for the value shapes in `PyVal`.  String
repr does not escape embedded quotes or backslashes; that corner is
not exercised by any well-typed correction data. -/
def pyRepr : PyVal → String
  | .vstr s => String.mk [Char.ofNat 39] ++ s ++ String.mk [Char.ofNat 39]
  | .vint n => toString n
  | .vbool b => if b then "True" else "False"
  | .vnone => "None"
  | .vlist xs =>
    "[" ++ String.intercalate ", " (xs.attach.map (fun x => pyRepr x.1)) ++ "]"
  | .vdict kvs =>
    "\x7b" ++
      String.intercalate ", "
        (kvs.attach.map (fun kv =>
          String.mk [Char.ofNat 39] ++ kv.1.1 ++ String.mk [Char.ofNat 39] ++ ": " ++ pyRepr kv.1.2)) ++
      "\x7d"
termination_by v => sizeOf v
decreasing_by
  · have := List.sizeOf_lt_of_mem x.2
    simp at *
    omega
  · obtain ⟨⟨a, b⟩, hmem⟩ := kv
    have := List.sizeOf_lt_of_mem hmem
    simp at *
    omega

/-- Model of Python's `str()` as used by f-string interpolation. -/
def pyStr (v : PyVal) : String :=
  match v with
  | .vstr s => s
  | w => pyRepr w

/-! Correction client (src/openrouter_client.py). -/

def OPENROUTER_URL : String := "https://openrouter.ai/api/v1/chat/completions"

def MODEL : String := "google/gemini-3-flash-preview"

/-- The base64 alphabet of RFC 4648, as used by `base64.b64encode`. -/
def b64Alphabet : List Char :=
  "ABCDEFGHIJKLMNOPQRSTUVWXYZabcdefghijklmnopqrstuvwxyz0123456789+/".data

def b64Char (n : Nat) : Char := b64Alphabet.getD n (Char.ofNat 65)

/-- Model of Python's `base64.b64encode(...).decode('utf-8')` on a
byte sequence (each element below 256). -/
def b64encode : List Nat → String
  | [] => ""
  | [b1] =>
    String.mk [b64Char (b1 / 4 % 64), b64Char (b1 % 4 * 16 % 64)] ++ "=="
  | [b1, b2] =>
    String.mk [b64Char (b1 / 4 % 64), b64Char ((b1 % 4 * 16 + b2 / 16) % 64),
               b64Char (b2 % 16 * 4 % 64)] ++ "="
  | b1 :: b2 :: b3 :: rest =>
    String.mk [b64Char (b1 / 4 % 64), b64Char ((b1 % 4 * 16 + b2 / 16) % 64),
               b64Char ((b2 % 16 * 4 + b3 / 64) % 64), b64Char (b3 % 64)] ++
      b64encode rest

/-- Translation of `encode_image_to_base64`. -/
def encode_image_to_base64 (image_bytes : List Nat) (mime_type : String) : String :=
  "data:" ++ mime_type ++ ";base64," ++ b64encode image_bytes

/-- The fixed part of the system prompt (the triple-quoted
`base_prompt` literal in `build_system_prompt`). -/
def base_prompt : String :=
  "You are an expert teacher and exercise corrector. Your task is to:\n" ++
  "1. Analyze the uploaded exercise image(s)\n" ++
  "2. Extract all exercises, questions, and given data\n" ++
  "3. Provide correct, detailed answers for each question\n" ++
  "\n" ++
  "For each exercise, include:\n" ++
  "- The exercise name or number\n" ++
  "- Any given data or context\n" ++
  "- Each question with its complete correct answer and explanation\n"

/-- Truthiness of an optional Python string (`if output_language:`):
true exactly for a present, non-empty string. -/
def optTruthy : Option String → Bool
  | some s => s != ""
  | none => false

/-- Translation of `build_system_prompt`. -/
def build_system_prompt (output_language user_preferences : Option String) : String :=
  let p := base_prompt
  let p :=
    if optTruthy output_language then
      p ++ "\n\nIMPORTANT: Respond in " ++ output_language.getD "" ++ "."
    else
      p ++ "\n\nIMPORTANT: Respond in the same language as the exercise content."
  if optTruthy user_preferences then
    p ++ "\n\nUser preferences: " ++ user_preferences.getD ""
  else p

/-- One entry of the user message's `content` array. -/
inductive ContentItem where
  | textItem (s : String)
  | imageUrlItem (url : String)
deriving Repr, DecidableEq

/-- The fixed text block that opens the content array in
`correct_exercises`. -/
def user_text : String :=
  "Please analyze and correct the exercises in the following image(s)."

/-- Translation of the content-building loop of `correct_exercises`:
the list starts with the fixed text block and each input image is
appended in turn as an image-URL block. -/
def build_content (images : List (List Nat × String)) : List ContentItem :=
  images.foldl
    (fun acc im => acc ++ [ContentItem.imageUrlItem (encode_image_to_base64 im.1 im.2)])
    [ContentItem.textItem user_text]

/-- Translation of `get_correction_schema` (the strict structured-output
schema sent with the request). -/
def get_correction_schema : PyVal :=
  .vdict
    [("type", .vstr "json_schema"),
     ("json_schema", .vdict
       [("name", .vstr "exercise_correction"),
        ("strict", .vbool true),
        ("schema", .vdict
          [("type", .vstr "object"),
           ("properties", .vdict
             [("exercises", .vdict
               [("type", .vstr "array"),
                ("description", .vstr "List of exercises with their corrections"),
                ("items", .vdict
                  [("type", .vstr "object"),
                   ("properties", .vdict
                     [("exercise_name", .vdict
                       [("type", .vstr "string"),
                        ("description", .vstr "Name or number of the exercise")]),
                      ("given_data", .vdict
                       [("type", .vstr "string"),
                        ("description", .vstr "Data provided in the exercise")]),
                      ("questions", .vdict
                       [("type", .vstr "array"),
                        ("description", .vstr "List of questions and their answers"),
                        ("items", .vdict
                          [("type", .vstr "object"),
                           ("properties", .vdict
                             [("question", .vdict
                               [("type", .vstr "string"),
                                ("description", .vstr "The original question text")]),
                              ("answer", .vdict
                               [("type", .vstr "string"),
                                ("description", .vstr "The correct answer with explanation")])]),
                           ("required", .vlist [.vstr "question", .vstr "answer"]),
                           ("additionalProperties", .vbool false)])])]),
                   ("required", .vlist [.vstr "exercise_name", .vstr "given_data", .vstr "questions"]),
                   ("additionalProperties", .vbool false)])])]),
           ("required", .vlist [.vstr "exercises"]),
           ("additionalProperties", .vbool false)])])]

/-- One chat message of the request. -/
inductive Message where
  | system (content : String)
  | user (content : List ContentItem)
deriving Repr, DecidableEq

/-- The JSON payload handed to `requests.post`. -/
structure Payload where
  model : String
  messages : List Message
  response_format : PyVal
deriving Repr

/-- The outbound HTTP request (URL, headers, payload). -/
structure Request where
  url : String
  headers : List (String × String)
  payload : Payload
deriving Repr

/-- Interpolation of an optional string into an f-string
(`f"Bearer ..."`): Python renders a missing value as `None`. -/
def pyStrOfOpt : Option String → String
  | some s => s
  | none => "None"

/-- Everything `correct_exercises` computes before the network call:
headers, content array, messages and payload.  This stage is a total
function — the source performs no credential or argument check here. -/
def build_request (key : Option String) (images : List (List Nat × String))
    (output_language user_preferences : Option String) : Request :=
  { url := OPENROUTER_URL
    headers :=
      [("Authorization", "Bearer " ++ pyStrOfOpt key),
       ("Content-Type", "application/json")]
    payload :=
      { model := MODEL
        messages :=
          [Message.system (build_system_prompt output_language user_preferences),
           Message.user (build_content images)]
        response_format := get_correction_schema } }

/-! JSON decoding (models `json.loads` / `response.json()`). -/

def quoteChar : Char := Char.ofNat 34

def backslashChar : Char := Char.ofNat 92

def lbraceChar : Char := Char.ofNat 123

def rbraceChar : Char := Char.ofNat 125

def lbrackChar : Char := Char.ofNat 91

def rbrackChar : Char := Char.ofNat 93

/-- Skip JSON insignificant whitespace. -/
def skipWs : List Char → List Char
  | c :: cs => if c == ' ' || c == '\t' || c == '\n' || c == '\r' then skipWs cs else c :: cs
  | [] => []

/-- Parse the remainder of a JSON string (opening quote already
consumed), handling the escapes the exchanged data can contain.  The
fuel argument makes the recursion structural; it is instantiated with
more than the input length. -/
def parseJStringAux : Nat → List Char → List Char → Option (String × List Char)
  | 0, _, _ => none
  | _ + 1, _, [] => none
  | fuel + 1, acc, c :: cs =>
    if c == quoteChar then some (String.mk acc.reverse, cs)
    else if c == backslashChar then
      match cs with
      | d :: cs2 =>
        if d == quoteChar then parseJStringAux fuel (quoteChar :: acc) cs2
        else if d == backslashChar then parseJStringAux fuel (backslashChar :: acc) cs2
        else if d == 'n' then parseJStringAux fuel ('\n' :: acc) cs2
        else if d == 't' then parseJStringAux fuel ('\t' :: acc) cs2
        else if d == '/' then parseJStringAux fuel ('/' :: acc) cs2
        else none
      | [] => none
    else parseJStringAux fuel (c :: acc) cs

/-- Parse a JSON string remainder with enough fuel for its input. -/
def parseJString (cs : List Char) : Option (String × List Char) :=
  parseJStringAux (cs.length + 1) [] cs

def isDigitChar (c : Char) : Bool := 48 ≤ c.toNat && c.toNat ≤ 57

def takeDigits : List Char → List Nat × List Char
  | c :: cs =>
    if isDigitChar c then
      let r := takeDigits cs
      ((c.toNat - 48) :: r.1, r.2)
    else ([], c :: cs)
  | [] => ([], [])

def natOfDigits (ds : List Nat) : Nat := ds.foldl (fun a d => a * 10 + d) 0

/-- Parse a JSON integer (the numeric fragment the exchanged data can
contain; fractions and exponents do not occur in it). -/
def parseJNumber : List Char → Option (PyVal × List Char)
  | c :: cs =>
    if c == '-' then
      match takeDigits cs with
      | ([], _) => none
      | (ds, rest) => some (.vint (-(natOfDigits ds : Int)), rest)
    else
      match takeDigits (c :: cs) with
      | ([], _) => none
      | (ds, rest) => some (.vint (natOfDigits ds), rest)
  | [] => none

/-- Check that the first list is a leading segment of the second. -/
def charsPre : List Char → List Char → Bool
  | [], _ => true
  | _ :: _, [] => false
  | a :: as, b :: bs => a == b && charsPre as bs

mutual

/-- Fuel-indexed recursive-descent parser for a JSON value. -/
def parseJVal : Nat → List Char → Option (PyVal × List Char)
  | 0, _ => none
  | fuel + 1, cs =>
    match skipWs cs with
    | [] => none
    | c :: rest =>
      if c == quoteChar then
        (parseJString rest).map (fun p => (PyVal.vstr p.1, p.2))
      else if c == lbrackChar then parseJArr fuel rest
      else if c == lbraceChar then parseJObj fuel rest
      else if charsPre "true".data (c :: rest) then some (.vbool true, (c :: rest).drop 4)
      else if charsPre "false".data (c :: rest) then some (.vbool false, (c :: rest).drop 5)
      else if charsPre "null".data (c :: rest) then some (.vnone, (c :: rest).drop 4)
      else parseJNumber (c :: rest)

/-- Parse a JSON array body (opening bracket already consumed). -/
def parseJArr : Nat → List Char → Option (PyVal × List Char)
  | 0, _ => none
  | fuel + 1, cs =>
    match skipWs cs with
    | c :: rest =>
      if c == rbrackChar then some (.vlist [], rest)
      else
        match parseJVal fuel (c :: rest) with
        | some (v, rest2) => parseJArrRest fuel [v] rest2
        | none => none
    | [] => none

/-- Parse the continuation of a JSON array after its first elements. -/
def parseJArrRest : Nat → List PyVal → List Char → Option (PyVal × List Char)
  | 0, _, _ => none
  | fuel + 1, acc, cs =>
    match skipWs cs with
    | c :: rest =>
      if c == ',' then
        match parseJVal fuel rest with
        | some (v, rest2) => parseJArrRest fuel (v :: acc) rest2
        | none => none
      else if c == rbrackChar then some (.vlist acc.reverse, rest)
      else none
    | [] => none

/-- Parse a JSON object body (opening brace already consumed). -/
def parseJObj : Nat → List Char → Option (PyVal × List Char)
  | 0, _ => none
  | fuel + 1, cs =>
    match skipWs cs with
    | c :: rest =>
      if c == rbraceChar then some (.vdict [], rest)
      else if c == quoteChar then
        match parseJString rest with
        | some (k, rest2) =>
          match skipWs rest2 with
          | d :: rest3 =>
            if d == ':' then
              match parseJVal fuel rest3 with
              | some (v, rest4) => parseJObjRest fuel [(k, v)] rest4
              | none => none
            else none
          | [] => none
        | none => none
      else none
    | [] => none

/-- Parse the continuation of a JSON object after its first members. -/
def parseJObjRest : Nat → List (String × PyVal) → List Char → Option (PyVal × List Char)
  | 0, _, _ => none
  | fuel + 1, acc, cs =>
    match skipWs cs with
    | c :: rest =>
      if c == ',' then
        match skipWs rest with
        | d :: rest2 =>
          if d == quoteChar then
            match parseJString rest2 with
            | some (k, rest3) =>
              match skipWs rest3 with
              | e :: rest4 =>
                if e == ':' then
                  match parseJVal fuel rest4 with
                  | some (v, rest5) => parseJObjRest fuel ((k, v) :: acc) rest5
                  | none => none
                else none
              | [] => none
            | none => none
          else none
        | [] => none
      else if c == rbraceChar then some (.vdict acc.reverse, rest)
      else none
    | [] => none

end

/-- Model of Python's `json.loads` on the JSON fragment the repository
exchanges; a failed parse is `json.JSONDecodeError`. -/
def jsonLoads (s : String) : Except PyErr PyVal :=
  match parseJVal (2 * s.length + 8) s.data with
  | some (v, rest) => if skipWs rest == [] then .ok v else .error .jsonDecodeError
  | none => .error .jsonDecodeError

/-- The HTTP response returned by `requests.post`: final status code
and raw body text (`response.json()` parses the latter). -/
structure HttpResponse where
  status_code : Nat
  body : String
deriving Repr

/-- Model of `response.raise_for_status()`: raises `HTTPError` exactly
for status codes in [400, 600). -/
def raise_for_status (r : HttpResponse) : Except PyErr Unit :=
  if 400 ≤ r.status_code ∧ r.status_code < 600 then
    .error (.httpError r.status_code)
  else .ok ()

/-- The response-handling half of `correct_exercises`: everything
after `requests.post` returns.  Checks the status, decodes the body,
extracts `data["choices"][0]["message"]["content"]` and decodes that
string as JSON — without any validation of its shape. -/
def parse_response (response : HttpResponse) : Except PyErr PyVal := do
  let _ ← raise_for_status response
  let data ← jsonLoads response.body
  let choices ← pySubscript data "choices"
  let first ← pyIndexNat choices 0
  let message ← pySubscript first "message"
  let contentV ← pySubscript message "content"
  let content_str ← pyAsStr contentV
  jsonLoads content_str

/-- Translation of `correct_exercises`: builds the request from the
ambient credential and the inputs, performs the single blocking call
(whose outcome is the supplied `response`), and parses the response.
The result pairs the request that was sent with the parsed outcome. -/
def correct_exercises (key : Option String) (images : List (List Nat × String))
    (output_language user_preferences : Option String)
    (response : HttpResponse) : Request × Except PyErr PyVal :=
  (build_request key images output_language user_preferences,
   parse_response response)

/-! Markdown formatter (format_correction_output). -/

/-- The sentinel list of the source:
`['none', 'n/a', '-', '']`. -/
def sentinels : List String := ["none", "n/a", "-", ""]

/-- Model of `exercise.get('given_data', '').strip()`: `.strip()` on
a non-string raises `AttributeError`. -/
def pyStripV (v : PyVal) : Except PyErr String :=
  match v with
  | .vstr s => .ok (pyStrip s)
  | _ => .error .attributeError

/-- One iteration of the questions loop of `format_correction_output`
(`i` is the 1-based `enumerate` counter). -/
def formatQuestionPy (i : Nat) (q : PyVal) : Except PyErr (List String) := do
  let qv ← pyGet q "question" (.vstr "")
  let av ← pyGet q "answer" (.vstr "")
  pure ["**" ++ toString i ++ ". " ++ pyStr qv ++ "**", "", pyStr av, "", ""]

/-- The questions loop of `format_correction_output`, with the running
`enumerate` counter. -/
def formatQuestionsPy (i : Nat) : List PyVal → Except PyErr (List String)
  | [] => pure []
  | q :: qs => do
    let l ← formatQuestionPy i q
    let rest ← formatQuestionsPy (i + 1) qs
    pure (l ++ rest)

/-- One iteration of the exercises loop of `format_correction_output`. -/
def formatExercisePy (ex : PyVal) : Except PyErr (List String) := do
  let nameV ← pyGet ex "exercise_name" (.vstr "")
  let gdV ← pyGet ex "given_data" (.vstr "")
  let gd ← pyStripV gdV
  let qsV ← pyGet ex "questions" (.vlist [])
  let qs ← pyIter qsV
  let qLines ← formatQuestionsPy 1 qs
  pure (["## " ++ pyStr nameV, ""] ++
    (if gd != "" && !(sentinels.contains (pyLower gd)) then ["*" ++ gd ++ "*", ""] else []) ++
    qLines ++ ["---", ""])

/-- The exercises loop of `format_correction_output`. -/
def formatExercisesPy : List PyVal → Except PyErr (List String)
  | [] => pure []
  | ex :: exs => do
    let l ← formatExercisePy ex
    let rest ← formatExercisesPy exs
    pure (l ++ rest)

/-- Translation of `format_correction_output`: builds the output line
list and joins it with newlines. -/
def format_correction_output (d : PyVal) : Except PyErr String := do
  let exsV ← pyGet d "exercises" (.vlist [])
  let exs ← pyIter exsV
  let ls ← formatExercisesPy exs
  pure (String.intercalate "\n" ls)

/-! Structured correction data (the CorrectionResult shape of the
declared schema) and its image inside `PyVal`. -/

structure Question where
  question : String
  answer : String
deriving Repr, DecidableEq

structure Exercise where
  exercise_name : String
  given_data : String
  questions : List Question
deriving Repr, DecidableEq

structure CorrectionResult where
  exercises : List Exercise
deriving Repr, DecidableEq

def Question.toPy (q : Question) : PyVal :=
  .vdict [("question", .vstr q.question), ("answer", .vstr q.answer)]

def Exercise.toPy (e : Exercise) : PyVal :=
  .vdict [("exercise_name", .vstr e.exercise_name),
          ("given_data", .vstr e.given_data),
          ("questions", .vlist (e.questions.map Question.toPy))]

def CorrectionResult.toPy (r : CorrectionResult) : PyVal :=
  .vdict [("exercises", .vlist (r.exercises.map Exercise.toPy))]

/-- The rendering condition of both renderers: the stripped given
data is truthy and its lowercase form is not a sentinel. -/
def givenDataKeep (g : String) : Bool :=
  let gd := pyStrip g
  gd != "" && !(sentinels.contains (pyLower gd))

/-- The lines the Markdown renderer devotes to an exercise's given
data (empty when suppressed). -/
def givenDataLines (e : Exercise) : List String :=
  if givenDataKeep e.given_data then ["*" ++ pyStrip e.given_data ++ "*", ""] else []

/-- The lines the Markdown renderer devotes to a question list,
numbering from `i`. -/
def mdQuestionLines (i : Nat) : List Question → List String
  | [] => []
  | q :: qs =>
    ["**" ++ toString i ++ ". " ++ q.question ++ "**", "", q.answer, "", ""] ++
      mdQuestionLines (i + 1) qs

/-- The lines the Markdown renderer devotes to one exercise. -/
def mdExercise (e : Exercise) : List String :=
  ["## " ++ e.exercise_name, ""] ++ givenDataLines e ++
    mdQuestionLines 1 e.questions ++ ["---", ""]

def mdLines (r : CorrectionResult) : List String := r.exercises.flatMap mdExercise

def mdOutput (r : CorrectionResult) : String := String.intercalate "\n" (mdLines r)

/-! PDF renderer (generate_pdf of src/app.py), modelled as the
sequence of drawing operations issued to the fpdf object.  The
cursor geometry (`get_y`, page breaks) is not modelled; the operation
sequence carries the content, styles and order. -/

inductive PdfOp where
  | add_page
  | add_font (family style file : String)
  | set_font (family style : String) (size : Nat)
  | multi_cell (w h : Nat) (text : String)
  | ln (h : Nat)
  | set_draw_color (r g b : Nat)
  | line
deriving Repr, DecidableEq

/-- The operations `generate_pdf` issues before the exercises loop. -/
def pdfHeaderOps : List PdfOp :=
  [.add_page,
   .add_font "DejaVu" "" "/usr/share/fonts/truetype/dejavu/DejaVuSans.ttf",
   .add_font "DejaVu" "B" "/usr/share/fonts/truetype/dejavu/DejaVuSans-Bold.ttf",
   .add_font "DejaVu" "I" "/usr/share/fonts/truetype/dejavu/DejaVuSans-Oblique.ttf",
   .set_font "DejaVu" "" 12]

/-- One iteration of the questions loop of `generate_pdf`.  The
question text goes through an f-string (total), the answer is passed
to `multi_cell` directly and must be a string. -/
def pdfQuestionPy (i : Nat) (q : PyVal) : Except PyErr (List PdfOp) := do
  let qv ← pyGet q "question" (.vstr "")
  let av ← pyGet q "answer" (.vstr "")
  let answer_text ← pyAsStr av
  pure [.set_font "DejaVu" "B" 12, .multi_cell 0 8 (toString i ++ ". " ++ pyStr qv), .ln 2,
        .set_font "DejaVu" "" 11, .multi_cell 0 7 answer_text, .ln 5]

/-- The questions loop of `generate_pdf`. -/
def pdfQuestionsPy (i : Nat) : List PyVal → Except PyErr (List PdfOp)
  | [] => pure []
  | q :: qs => do
    let l ← pdfQuestionPy i q
    let rest ← pdfQuestionsPy (i + 1) qs
    pure (l ++ rest)

/-- One iteration of the exercises loop of `generate_pdf`.  The
exercise name is passed to `multi_cell` directly and must be a
string. -/
def pdfExercisePy (ex : PyVal) : Except PyErr (List PdfOp) := do
  let nameV ← pyGet ex "exercise_name" (.vstr "")
  let exercise_name ← pyAsStr nameV
  let gdV ← pyGet ex "given_data" (.vstr "")
  let gd ← pyStripV gdV
  let qsV ← pyGet ex "questions" (.vlist [])
  let qs ← pyIter qsV
  let qOps ← pdfQuestionsPy 1 qs
  pure ([.set_font "DejaVu" "B" 14, .multi_cell 0 10 exercise_name, .ln 3] ++
    (if gd != "" && !(sentinels.contains (pyLower gd)) then
      [.set_font "DejaVu" "I" 11, .multi_cell 0 8 gd, .ln 3]
    else []) ++
    qOps ++ [.ln 5, .set_draw_color 200 200 200, .line, .ln 8])

/-- The exercises loop of `generate_pdf`. -/
def pdfExercisesPy : List PyVal → Except PyErr (List PdfOp)
  | [] => pure []
  | ex :: exs => do
    let l ← pdfExercisePy ex
    let rest ← pdfExercisesPy exs
    pure (l ++ rest)

/-- Translation of `generate_pdf`, as the list of drawing operations
issued to the document. -/
def generate_pdf (d : PyVal) : Except PyErr (List PdfOp) := do
  let exsV ← pyGet d "exercises" (.vlist [])
  let exs ← pyIter exsV
  let body ← pdfExercisesPy exs
  pure (pdfHeaderOps ++ body)

/-- The operations the PDF renderer devotes to an exercise's given
data (empty when suppressed). -/
def pdfGivenOps (e : Exercise) : List PdfOp :=
  if givenDataKeep e.given_data then
    [.set_font "DejaVu" "I" 11, .multi_cell 0 8 (pyStrip e.given_data), .ln 3]
  else []

/-- The operations the PDF renderer devotes to a question list,
numbering from `i`. -/
def pdfQuestionOps (i : Nat) : List Question → List PdfOp
  | [] => []
  | q :: qs =>
    [.set_font "DejaVu" "B" 12, .multi_cell 0 8 (toString i ++ ". " ++ q.question), .ln 2,
     .set_font "DejaVu" "" 11, .multi_cell 0 7 q.answer, .ln 5] ++
      pdfQuestionOps (i + 1) qs

/-- The operations the PDF renderer devotes to one exercise. -/
def pdfExercise (e : Exercise) : List PdfOp :=
  [.set_font "DejaVu" "B" 14, .multi_cell 0 10 e.exercise_name, .ln 3] ++
    pdfGivenOps e ++ pdfQuestionOps 1 e.questions ++
    [.ln 5, .set_draw_color 200 200 200, .line, .ln 8]

def pdfBody (r : CorrectionResult) : List PdfOp := r.exercises.flatMap pdfExercise

/-! Bridge lemmas: the dynamic renderers evaluated on the image of
well-typed structured data. -/

theorem formatQuestionPy_toPy (i : Nat) (q : Question) :
    formatQuestionPy i q.toPy =
      .ok ["**" ++ toString i ++ ". " ++ q.question ++ "**", "", q.answer, "", ""] := rfl

theorem formatQuestionsPy_toPy (qs : List Question) : ∀ i,
    formatQuestionsPy i (qs.map Question.toPy) = .ok (mdQuestionLines i qs) := by
  induction qs with
  | nil => intro i; rfl
  | cons q qs ih =>
    intro i
    simp [formatQuestionsPy, mdQuestionLines, formatQuestionPy_toPy, ih, bind, Except.bind, pure, Except.pure]

theorem formatExercisePy_toPy (e : Exercise) :
    formatExercisePy e.toPy = .ok (mdExercise e) := by
  simp [formatExercisePy, Exercise.toPy, pyGet, dictFind, pyStripV, pyIter,
        formatQuestionsPy_toPy, mdExercise, givenDataLines, givenDataKeep, pyStr,
        bind, Except.bind, pure, Except.pure, Functor.map, Except.map]

theorem formatExercisesPy_toPy (exs : List Exercise) :
    formatExercisesPy (exs.map Exercise.toPy) = .ok (exs.flatMap mdExercise) := by
  induction exs with
  | nil => rfl
  | cons e exs ih =>
    simp [formatExercisesPy, formatExercisePy_toPy, ih, bind, Except.bind, pure, Except.pure]

theorem format_correction_output_toPy (r : CorrectionResult) :
    format_correction_output r.toPy = .ok (mdOutput r) := by
  cases r with
  | mk exs =>
    simp [format_correction_output, CorrectionResult.toPy, pyGet, dictFind, pyIter,
          formatExercisesPy_toPy, mdOutput, mdLines, bind, Except.bind, pure, Except.pure, Functor.map, Except.map]

theorem pdfQuestionPy_toPy (i : Nat) (q : Question) :
    pdfQuestionPy i q.toPy =
      .ok [.set_font "DejaVu" "B" 12, .multi_cell 0 8 (toString i ++ ". " ++ q.question),
           .ln 2, .set_font "DejaVu" "" 11, .multi_cell 0 7 q.answer, .ln 5] := rfl

theorem pdfQuestionsPy_toPy (qs : List Question) : ∀ i,
    pdfQuestionsPy i (qs.map Question.toPy) = .ok (pdfQuestionOps i qs) := by
  induction qs with
  | nil => intro i; rfl
  | cons q qs ih =>
    intro i
    simp [pdfQuestionsPy, pdfQuestionOps, pdfQuestionPy_toPy, ih, bind, Except.bind, pure, Except.pure]

theorem pdfExercisePy_toPy (e : Exercise) :
    pdfExercisePy e.toPy = .ok (pdfExercise e) := by
  simp [pdfExercisePy, Exercise.toPy, pyGet, dictFind, pyStripV, pyIter, pyAsStr,
        pdfQuestionsPy_toPy, pdfExercise, pdfGivenOps, givenDataKeep,
        bind, Except.bind, pure, Except.pure, Functor.map, Except.map]

theorem pdfExercisesPy_toPy (exs : List Exercise) :
    pdfExercisesPy (exs.map Exercise.toPy) = .ok (exs.flatMap pdfExercise) := by
  induction exs with
  | nil => rfl
  | cons e exs ih =>
    simp [pdfExercisesPy, pdfExercisePy_toPy, ih, bind, Except.bind, pure, Except.pure]

theorem generate_pdf_toPy (r : CorrectionResult) :
    generate_pdf r.toPy = .ok (pdfHeaderOps ++ pdfBody r) := by
  cases r with
  | mk exs =>
    simp [generate_pdf, CorrectionResult.toPy, pyGet, dictFind, pyIter,
          pdfExercisesPy_toPy, pdfBody, bind, Except.bind, pure, Except.pure, Functor.map, Except.map]


/-! Common content abstraction of the two renderers: each exercise is
a sequence of fields, and each renderer is a decoration of that same
sequence. -/

inductive Field where
  | name (t : String)
  | given (t : String)
  | question (t : String)
  | answer (t : String)
  | separator
deriving Repr, DecidableEq

/-- The field sequence of a question list, numbering from `i`. -/
def questionFields (i : Nat) : List Question → List Field
  | [] => []
  | q :: qs =>
    [.question (toString i ++ ". " ++ q.question), .answer q.answer] ++
      questionFields (i + 1) qs

/-- The field sequence of one exercise: name, optional given data,
numbered questions with answers, separator. -/
def exerciseFields (e : Exercise) : List Field :=
  [.name e.exercise_name] ++
    (if givenDataKeep e.given_data then [.given (pyStrip e.given_data)] else []) ++
    questionFields 1 e.questions ++ [.separator]

/-- The Markdown decoration of one field. -/
def renderMdField : Field → List String
  | .name t => ["## " ++ t, ""]
  | .given t => ["*" ++ t ++ "*", ""]
  | .question t => ["**" ++ t ++ "**", ""]
  | .answer t => [t, "", ""]
  | .separator => ["---", ""]

/-- The PDF decoration of one field. -/
def renderPdfField : Field → List PdfOp
  | .name t => [.set_font "DejaVu" "B" 14, .multi_cell 0 10 t, .ln 3]
  | .given t => [.set_font "DejaVu" "I" 11, .multi_cell 0 8 t, .ln 3]
  | .question t => [.set_font "DejaVu" "B" 12, .multi_cell 0 8 t, .ln 2]
  | .answer t => [.set_font "DejaVu" "" 11, .multi_cell 0 7 t, .ln 5]
  | .separator => [.ln 5, .set_draw_color 200 200 200, .line, .ln 8]

theorem mdQuestionLines_eq_fields (qs : List Question) : ∀ i,
    mdQuestionLines i qs = (questionFields i qs).flatMap renderMdField := by
  induction qs with
  | nil => intro i; rfl
  | cons q qs ih =>
    intro i
    simp [mdQuestionLines, questionFields, renderMdField, ih, String.append_assoc]

theorem pdfQuestionOps_eq_fields (qs : List Question) : ∀ i,
    pdfQuestionOps i qs = (questionFields i qs).flatMap renderPdfField := by
  induction qs with
  | nil => intro i; rfl
  | cons q qs ih =>
    intro i
    simp [pdfQuestionOps, questionFields, renderPdfField, ih, String.append_assoc]

theorem mdExercise_eq_fields (e : Exercise) :
    mdExercise e = (exerciseFields e).flatMap renderMdField := by
  by_cases h : givenDataKeep e.given_data <;>
    simp [mdExercise, exerciseFields, renderMdField, mdQuestionLines_eq_fields,
          givenDataLines, h]

theorem pdfExercise_eq_fields (e : Exercise) :
    pdfExercise e = (exerciseFields e).flatMap renderPdfField := by
  by_cases h : givenDataKeep e.given_data <;>
    simp [pdfExercise, exerciseFields, renderPdfField, pdfQuestionOps_eq_fields,
          pdfGivenOps, h]

/-! The content array seen as a map over the input images. -/

theorem foldl_append_map {α β : Type} (f : α → β) (xs : List α) : ∀ init : List β,
    xs.foldl (fun acc x => acc ++ [f x]) init = init ++ xs.map f := by
  induction xs with
  | nil => intro init; simp
  | cons x xs ih =>
    intro init
    simp [List.foldl, ih]

theorem build_content_eq (images : List (List Nat × String)) :
    build_content images =
      ContentItem.textItem user_text ::
        images.map (fun im =>
          ContentItem.imageUrlItem ("data:" ++ im.2 ++ ";base64," ++ b64encode im.1)) := by
  simp [build_content, foldl_append_map, encode_image_to_base64]

/-! Question numbering: position j (0-based) of the question list is
rendered with the counter value i + j. -/

theorem mdQuestionLines_numbering (qs : List Question) : ∀ (i j : Nat) (q : Question),
    qs[j]? = some q →
    (mdQuestionLines i qs)[5 * j]? =
      some ("**" ++ toString (i + j) ++ ". " ++ q.question ++ "**") := by
  induction qs with
  | nil => intro i j q h; simp at h
  | cons p qs ih =>
    intro i j q h
    cases j with
    | zero =>
      simp at h
      subst h
      simp [mdQuestionLines]
    | succ j =>
      simp at h
      have step := ih (i + 1) j q h
      rw [mdQuestionLines]
      have hsplit : (["**" ++ toString i ++ ". " ++ p.question ++ "**", "", p.answer, "", ""] ++
          mdQuestionLines (i + 1) qs)[5 * (j + 1)]? = (mdQuestionLines (i + 1) qs)[5 * j]? := by
        rw [List.getElem?_append_right (by simp)]
        congr 1
      rw [hsplit, step]
      have harith : i + 1 + j = i + (j + 1) := by omega
      rw [harith]
/-! Structurally incomplete but type-correct dynamic input: every
field the schema requires may be absent, but any present `given_data`
is a string and any present `questions` is a list of dicts. -/

def isDictV (v : PyVal) : Bool :=
  match v with
  | .vdict _ => true
  | _ => false

def exShapeOK (ex : PyVal) : Bool :=
  match ex with
  | .vdict kvs =>
    (match dictFind kvs "given_data" with
     | some (.vstr _) => true
     | some _ => false
     | none => true) &&
    (match dictFind kvs "questions" with
     | some (.vlist qs) => qs.all isDictV
     | some _ => false
     | none => true)
  | _ => false

def wellShapedDyn (d : PyVal) : Bool :=
  match d with
  | .vdict kvs =>
    match dictFind kvs "exercises" with
    | some (.vlist exs) => exs.all exShapeOK
    | some _ => false
    | none => true
  | _ => false

theorem formatQuestionPy_dict (i : Nat) (kvs : List (String × PyVal)) :
    formatQuestionPy i (.vdict kvs) =
      .ok ["**" ++ toString i ++ ". " ++ pyStr ((dictFind kvs "question").getD (.vstr "")) ++ "**",
           "", pyStr ((dictFind kvs "answer").getD (.vstr "")), "", ""] := rfl

theorem formatQuestionsPy_dicts : ∀ (qs : List PyVal), qs.all isDictV = true → ∀ i,
    ∃ ls, formatQuestionsPy i qs = .ok ls := by
  intro qs
  induction qs with
  | nil => exact fun _ i => ⟨[], rfl⟩
  | cons q qs ih =>
    intro h i
    rw [List.all_cons, Bool.and_eq_true] at h
    obtain ⟨hq, hqs⟩ := h
    obtain ⟨ls, hls⟩ := ih hqs (i + 1)
    cases q with
    | vdict kvs =>
      refine ⟨["**" ++ toString i ++ ". " ++ pyStr ((dictFind kvs "question").getD (.vstr "")) ++ "**",
               "", pyStr ((dictFind kvs "answer").getD (.vstr "")), "", ""] ++ ls, ?_⟩
      simp [formatQuestionsPy, formatQuestionPy_dict, hls, bind, Except.bind, pure, Except.pure]
    | vstr s => simp [isDictV] at hq
    | vint n => simp [isDictV] at hq
    | vbool b => simp [isDictV] at hq
    | vnone => simp [isDictV] at hq
    | vlist xs => simp [isDictV] at hq

theorem formatExercisePy_shaped (ex : PyVal) (h : exShapeOK ex = true) :
    ∃ ls, formatExercisePy ex = .ok ls := by
  cases ex with
  | vdict kvs =>
    rw [exShapeOK, Bool.and_eq_true] at h
    obtain ⟨hgd, hqs⟩ := h
    have hg : ∃ g, pyStripV ((dictFind kvs "given_data").getD (.vstr "")) = .ok g := by
      rcases h1 : dictFind kvs "given_data" with _ | gv
      · exact ⟨pyStrip "", rfl⟩
      · rw [h1] at hgd
        cases gv with
        | vstr s => exact ⟨pyStrip s, rfl⟩
        | vint n => simp at hgd
        | vbool b => simp at hgd
        | vnone => simp at hgd
        | vlist xs => simp at hgd
        | vdict kvs2 => simp at hgd
    obtain ⟨g, hgeq⟩ := hg
    have hq : ∃ qs0 qls, pyIter ((dictFind kvs "questions").getD (.vlist [])) = .ok qs0 ∧
        formatQuestionsPy 1 qs0 = .ok qls := by
      rcases h2 : dictFind kvs "questions" with _ | qv
      · exact ⟨[], [], rfl, rfl⟩
      · rw [h2] at hqs
        cases qv with
        | vlist xs =>
          obtain ⟨ls, hls⟩ := formatQuestionsPy_dicts xs hqs 1
          exact ⟨xs, ls, rfl, hls⟩
        | vstr s => simp at hqs
        | vint n => simp at hqs
        | vbool b => simp at hqs
        | vnone => simp at hqs
        | vdict kvs2 => simp at hqs
    obtain ⟨qs0, qls, hqi, hql⟩ := hq
    refine ⟨["## " ++ pyStr ((dictFind kvs "exercise_name").getD (.vstr "")), ""] ++
      (if g != "" && !(sentinels.contains (pyLower g)) then ["*" ++ g ++ "*", ""] else []) ++
      qls ++ ["---", ""], ?_⟩
    simp [formatExercisePy, pyGet, hgeq, hqi, hql, bind, Except.bind, pure, Except.pure]
  | vstr s => simp [exShapeOK] at h
  | vint n => simp [exShapeOK] at h
  | vbool b => simp [exShapeOK] at h
  | vnone => simp [exShapeOK] at h
  | vlist xs => simp [exShapeOK] at h

theorem formatExercisesPy_shaped : ∀ (exs : List PyVal), exs.all exShapeOK = true →
    ∃ ls, formatExercisesPy exs = .ok ls := by
  intro exs
  induction exs with
  | nil => exact fun _ => ⟨[], rfl⟩
  | cons ex exs ih =>
    intro h
    rw [List.all_cons, Bool.and_eq_true] at h
    obtain ⟨hex, hexs⟩ := h
    obtain ⟨l1, hl1⟩ := formatExercisePy_shaped ex hex
    obtain ⟨l2, hl2⟩ := ih hexs
    exact ⟨l1 ++ l2, by simp [formatExercisesPy, hl1, hl2, bind, Except.bind,
      pure, Except.pure]⟩

theorem format_correction_output_shaped (d : PyVal) (h : wellShapedDyn d = true) :
    ∃ s, format_correction_output d = .ok s := by
  cases d with
  | vdict kvs =>
    rw [wellShapedDyn] at h
    rcases h1 : dictFind kvs "exercises" with _ | ev
    · exact ⟨String.intercalate "\n" [], by
        simp [format_correction_output, pyGet, h1, pyIter, formatExercisesPy,
          bind, Except.bind, pure, Except.pure]⟩
    · rw [h1] at h
      cases ev with
      | vlist exs =>
        obtain ⟨ls, hls⟩ := formatExercisesPy_shaped exs h
        exact ⟨String.intercalate "\n" ls, by
          simp [format_correction_output, pyGet, h1, pyIter, hls,
            bind, Except.bind, pure, Except.pure, Functor.map, Except.map]⟩
      | vstr s => simp at h
      | vint n => simp at h
      | vbool b => simp at h
      | vnone => simp at h
      | vdict kvs2 => simp at h
  | vstr s => simp [wellShapedDyn] at h
  | vint n => simp [wellShapedDyn] at h
  | vbool b => simp [wellShapedDyn] at h
  | vnone => simp [wellShapedDyn] at h
  | vlist xs => simp [wellShapedDyn] at h

/-! Concrete provider responses used by the claims. -/

/-- JSON string escaping, as `json.dumps` performs it for the
characters occurring in the contents below. -/
def jsonEscape (s : String) : String :=
  String.mk (s.data.flatMap (fun c =>
    if c == quoteChar then [backslashChar, quoteChar]
    else if c == backslashChar then [backslashChar, backslashChar]
    else [c]))

/-- A chat-completions envelope whose first choice's message content
is the given string. -/
def mkEnvelope (content : String) : String :=
  "\x7b\"choices\":[\x7b\"message\":\x7b\"content\":\"" ++ jsonEscape content ++ "\"\x7d\x7d]\x7d"

/-- Message content that is valid JSON but omits `answer` on its one
question. -/
def c1_content : String :=
  "\x7b\"exercises\":[\x7b\"exercise_name\":\"Ex 1\",\"given_data\":\"\",\"questions\":[\x7b\"question\":\"Q1\"\x7d]\x7d]\x7d"

/-- The Python value `json.loads` yields for `c1_content`. -/
def c1_parsed : PyVal :=
  .vdict [("exercises", .vlist [.vdict
    [("exercise_name", .vstr "Ex 1"), ("given_data", .vstr ""),
     ("questions", .vlist [.vdict [("question", .vstr "Q1")]])]])]

/-- Message content that conforms to the declared schema. -/
def ok_content : String :=
  "\x7b\"exercises\":[\x7b\"exercise_name\":\"Ex 1\",\"given_data\":\"\",\"questions\":[\x7b\"question\":\"Q1\",\"answer\":\"A1\"\x7d]\x7d]\x7d"

/-- The Python value `json.loads` yields for `ok_content`. -/
def ok_parsed : PyVal :=
  .vdict [("exercises", .vlist [.vdict
    [("exercise_name", .vstr "Ex 1"), ("given_data", .vstr ""),
     ("questions", .vlist [.vdict
       [("question", .vstr "Q1"), ("answer", .vstr "A1")]])]])]

/-! Claim C1. -/

/-- C1 counterexample: a 200 response whose message content is valid
JSON but omits `answer` on its question does NOT make
`correct_exercises` fail — it returns the partially-populated value,
so the claimed `MalformedResponseError` behaviour is absent. -/
theorem c1_counterexample :
    (correct_exercises (some "key") [([0], "image/png")] none none
        ⟨200, mkEnvelope c1_content⟩).2 = Except.ok c1_parsed := rfl

/-- C1 (amended): the client performs no shape validation on the
decoded message content: the nonconforming value above is returned
unchanged, and its question dict indeed has no `answer` key. -/
theorem c1_no_client_validation :
    parse_response ⟨200, mkEnvelope c1_content⟩ = Except.ok c1_parsed ∧
    dictFind [("question", PyVal.vstr "Q1")] "answer" = none := ⟨rfl, rfl⟩

/-! Claim C2. -/

/-- C2 counterexample: with the credential missing, `correct_exercises`
does not fail before the network call — the request is built with the
header `Authorization: Bearer None`, the call is made, and a 200
response with conforming content still yields a result. -/
theorem c2_counterexample :
    (correct_exercises none [([0], "image/png")] none none
        ⟨200, mkEnvelope ok_content⟩).1.headers =
      [("Authorization", "Bearer None"), ("Content-Type", "application/json")] ∧
    (correct_exercises none [([0], "image/png")] none none
        ⟨200, mkEnvelope ok_content⟩).2 = Except.ok ok_parsed := ⟨rfl, rfl⟩

/-- C2 (amended): a missing credential causes no `ConfigurationError`
and no pre-network failure: for every input, the request carries
`Authorization: Bearer None` and the outcome is exactly the parsing
of whatever HTTP response comes back. -/
theorem c2_no_credential_check (images : List (List Nat × String))
    (ol up : Option String) (response : HttpResponse) :
    (correct_exercises none images ol up response).1.headers =
      [("Authorization", "Bearer None"), ("Content-Type", "application/json")] ∧
    (correct_exercises none images ol up response).2 = parse_response response :=
  ⟨rfl, rfl⟩

/-! Claim C7. -/

/-- C7 counterexample: a non-2xx status outside [400, 600) — here 300
— is not rejected by `raise_for_status`, so the call does not fail
with a transport error and still produces a result. -/
theorem c7_counterexample :
    parse_response ⟨300, mkEnvelope ok_content⟩ = Except.ok ok_parsed := rfl

/-- C7 (amended): every 4xx/5xx status makes the single call fail
with an HTTP error carrying that status (and hence produce no
result), whatever the body; the embedding consumes exactly one
response, so no retry occurs. -/
theorem c7_http_error (status : Nat) (body : String)
    (h1 : 400 ≤ status) (h2 : status < 600) :
    parse_response ⟨status, body⟩ = Except.error (PyErr.httpError status) := by
  simp [parse_response, raise_for_status, h1, h2, bind, Except.bind]

/-- C7 witness: the amended statement at status 404. -/
theorem c7_witness :
    parse_response ⟨404, ""⟩ = Except.error (PyErr.httpError 404) :=
  c7_http_error 404 "" (by decide) (by decide)

/-! Claim C4. -/

/-- C4 counterexample: with no output language, the synthesized
instruction does not contain the fallback clause the claim quotes
("... the same language as the source content"), even up to case. -/
theorem c4_counterexample :
    ¬ ((pyLower "respond in the same language as the source content").data <:+:
        (pyLower (build_system_prompt none none)).data) := by decide

/-- C4 (amended): for every non-empty language L the prompt is the
base prompt followed by the literal directive "IMPORTANT: Respond in
L."; for L = "French" it contains that directive and not the fallback
clause, whose actual wording is "Respond in the same language as the
exercise content."; with the language absent the prompt contains that
fallback clause. -/
theorem c4_language_directive (L : String) (h : L ≠ "") :
    build_system_prompt (some L) none =
      base_prompt ++ "\n\nIMPORTANT: Respond in " ++ L ++ "." ∧
    ("IMPORTANT: Respond in French.").data <:+:
      (build_system_prompt (some "French") none).data ∧
    ¬ (("Respond in the same language as the exercise content.").data <:+:
        (build_system_prompt (some "French") none).data) ∧
    ("Respond in the same language as the exercise content.").data <:+:
      (build_system_prompt none none).data := by
  refine ⟨?_, by decide, by decide, by decide⟩
  simp [build_system_prompt, optTruthy, h]

/-- C4 witness: the amended statement at L = "French". -/
theorem c4_witness :
    build_system_prompt (some "French") none =
      base_prompt ++ "\n\nIMPORTANT: Respond in " ++ "French" ++ "." :=
  (c4_language_directive "French" (by decide)).1

/-! Claim C3. -/

theorem givenDataKeep_iff (g : String) :
    givenDataKeep g = true ↔
      (pyStrip g ≠ "" ∧ pyLower (pyStrip g) ∉ (["none", "n/a", "-", ""] : List String)) := by
  simp [givenDataKeep, sentinels]

/-- C3: the Markdown renderer devotes lines to an exercise's given
data exactly when the stripped value is non-empty and its lowercase
form is none of the sentinels; when it does, the line is the stripped
value in emphasis markers.  Sentinel inputs "", "none", "NONE",
"N/A", "-" produce no such line, and given data "x=5" makes the full
output contain the emphasized text "*x=5*". -/
theorem c3_given_data_rule (e : Exercise) :
    formatExercisePy e.toPy =
      Except.ok (["## " ++ e.exercise_name, ""] ++ givenDataLines e ++
        mdQuestionLines 1 e.questions ++ ["---", ""]) ∧
    (givenDataLines e ≠ [] ↔
      (pyStrip e.given_data ≠ "" ∧
        pyLower (pyStrip e.given_data) ∉ (["none", "n/a", "-", ""] : List String))) ∧
    (givenDataLines e ≠ [] → givenDataLines e = ["*" ++ pyStrip e.given_data ++ "*", ""]) ∧
    (∀ s, s ∈ (["", "none", "NONE", "N/A", "-"] : List String) →
      givenDataLines ⟨e.exercise_name, s, e.questions⟩ = []) ∧
    format_correction_output (CorrectionResult.mk [⟨"Ex", "x=5", [⟨"Q", "A"⟩]⟩]).toPy =
      Except.ok ("## Ex\n\n" ++ "*x=5*" ++ "\n\n**1. Q**\n\nA\n\n\n---\n") := by
  refine ⟨formatExercisePy_toPy e, ?_, ?_, ?_, rfl⟩
  · by_cases hk : givenDataKeep e.given_data
    · simp [givenDataLines, hk, (givenDataKeep_iff e.given_data).mp hk]
    · simp only [givenDataLines, hk]
      simp only [Bool.false_eq_true, if_false, ne_eq, not_true_eq_false, false_iff]
      exact fun hc => hk ((givenDataKeep_iff e.given_data).mpr hc)
  · intro hne
    by_cases hk : givenDataKeep e.given_data
    · simp [givenDataLines, hk]
    · simp [givenDataLines, hk] at hne
  · intro s hs
    simp only [List.mem_cons, List.mem_singleton] at hs
    rcases hs with rfl | rfl | rfl | rfl | rfl | h
    · rfl
    · rfl
    · rfl
    · rfl
    · rfl
    · simp at h

/-- C3 witness: the rule applied at a concrete exercise whose given
data strips to "x=5". -/
theorem c3_witness :
    givenDataLines ⟨"N", " x=5 ", []⟩ = ["*x=5*", ""] :=
  (c3_given_data_rule ⟨"N", " x=5 ", []⟩).2.2.1 (by decide)

/-! Claim C5. -/

/-- C5: question numbering is 1-based in array order and restarts for
every exercise: position j of a question list numbered from i renders
with counter i + j, every exercise's lines number its questions from
1 regardless of the exercise's position, and the 2-question-then-
1-question result renders numbers 1, 2 and then 1. -/
theorem c5_numbering_restarts (qs : List Question) (i j : Nat) (q : Question)
    (h : qs[j]? = some q) :
    (mdQuestionLines i qs)[5 * j]? =
      some ("**" ++ toString (i + j) ++ ". " ++ q.question ++ "**") ∧
    (∀ e : Exercise, mdExercise e = ["## " ++ e.exercise_name, ""] ++ givenDataLines e ++
      mdQuestionLines 1 e.questions ++ ["---", ""]) ∧
    format_correction_output (CorrectionResult.mk
        [⟨"E1", "", [⟨"qa", "a1"⟩, ⟨"qb", "a2"⟩]⟩, ⟨"E2", "", [⟨"qc", "a3"⟩]⟩]).toPy =
      Except.ok ("## E1\n\n**1. qa**\n\na1\n\n\n**2. qb**\n\na2\n\n\n---\n\n" ++
        "## E2\n\n**1. qc**\n\na3\n\n\n---\n") :=
  ⟨mdQuestionLines_numbering qs i j q h, fun _ => rfl, rfl⟩

/-- C5 witness: the numbering statement at the second question of a
two-question list numbered from 1. -/
theorem c5_witness :
    (mdQuestionLines 1 [⟨"qa", "a1"⟩, ⟨"qb", "a2"⟩])[5 * 1]? =
      some ("**" ++ toString (1 + 1) ++ ". " ++ "qb" ++ "**") :=
  (c5_numbering_restarts [⟨"qa", "a1"⟩, ⟨"qb", "a2"⟩] 1 1 ⟨"qb", "a2"⟩ rfl).1

/-! Claim C6. -/

/-- C6: the PDF renderer and the Markdown renderer traverse the same
exercises in order, both factor through the same per-exercise field
sequence (name, optional given data, numbered questions with answers,
separator), and they render an exercise's given data under the same
suppression rule. -/
theorem c6_pdf_markdown_agree (r : CorrectionResult) (e : Exercise) :
    generate_pdf r.toPy = Except.ok (pdfHeaderOps ++ r.exercises.flatMap pdfExercise) ∧
    format_correction_output r.toPy =
      Except.ok (String.intercalate "\n" (r.exercises.flatMap mdExercise)) ∧
    pdfExercise e = (exerciseFields e).flatMap renderPdfField ∧
    mdExercise e = (exerciseFields e).flatMap renderMdField ∧
    (pdfGivenOps e ≠ [] ↔ givenDataLines e ≠ []) := by
  refine ⟨generate_pdf_toPy r, format_correction_output_toPy r,
    pdfExercise_eq_fields e, mdExercise_eq_fields e, ?_⟩
  by_cases hk : givenDataKeep e.given_data <;> simp [pdfGivenOps, givenDataLines, hk]

/-! Claim C8. -/

/-- C8: the request's user message consists of the fixed text block
followed by exactly one image block per input image, in input order
with no reordering or deduplication, each a base64 data URL tagged
with the image's declared MIME type. -/
theorem c8_content_blocks (key : Option String) (images : List (List Nat × String))
    (ol up : Option String) (h : images ≠ []) :
    (build_request key images ol up).payload.messages =
      [Message.system (build_system_prompt ol up), Message.user (build_content images)] ∧
    build_content images =
      ContentItem.textItem user_text ::
        images.map (fun im =>
          ContentItem.imageUrlItem ("data:" ++ im.2 ++ ";base64," ++ b64encode im.1)) ∧
    (build_content images).length = images.length + 1 ∧
    encode_image_to_base64 [77, 97, 110] "image/png" = "data:image/png;base64,TWFu" := by
  refine ⟨rfl, build_content_eq images, ?_, rfl⟩
  simp [build_content_eq]

/-- C8 witness: the content blocks of a single-image request. -/
theorem c8_witness :
    build_content [([77, 97, 110], "image/jpeg")] =
      [ContentItem.textItem user_text,
       ContentItem.imageUrlItem "data:image/jpeg;base64,TWFu"] :=
  ((c8_content_blocks none [([77, 97, 110], "image/jpeg")] none none (by decide)).2.1).trans rfl

/-! Claim C9. -/

/-- C9: the empty correction result renders to the empty Markdown
string (no heading, question, answer or given-data line) without
failing, and the PDF renderer succeeds, emitting only its fixed
header operations and an empty body. -/
theorem c9_empty_exercises :
    format_correction_output (CorrectionResult.mk []).toPy = Except.ok "" ∧
    mdLines (CorrectionResult.mk []) = [] ∧
    generate_pdf (CorrectionResult.mk []).toPy = Except.ok pdfHeaderOps ∧
    pdfBody (CorrectionResult.mk []) = [] := ⟨rfl, rfl, rfl, rfl⟩

/-! Claim C10. -/

/-- The claim's literal hypothesis: every entry of `exercises` is a
dict and every entry of each present `questions` list is a dict, with
no constraint on the fields themselves. -/
def claim_shape (d : PyVal) : Bool :=
  match d with
  | .vdict kvs =>
    match dictFind kvs "exercises" with
    | some (.vlist exs) =>
      exs.all (fun ex =>
        isDictV ex &&
        (match ex with
         | .vdict kvs2 =>
           match dictFind kvs2 "questions" with
           | some (.vlist qs) => qs.all isDictV
           | _ => true
         | _ => true))
    | none => true
    | some _ => false
  | _ => false

/-- C10 counterexample: an input satisfying the claim's hypothesis
(exercise entries are dicts, questions absent) on which
`format_correction_output` nevertheless raises, because the present
`given_data` is an int and `.strip()` fails on it. -/
theorem c10_counterexample :
    claim_shape (.vdict [("exercises", .vlist [.vdict [("given_data", .vint 5)]])]) = true ∧
    format_correction_output
        (.vdict [("exercises", .vlist [.vdict [("given_data", .vint 5)]])]) =
      Except.error PyErr.attributeError := ⟨rfl, rfl⟩

/-- C10 (amended): on a dict whose exercise entries and question
entries are dicts AND whose present `given_data` values are strings
and present `questions` values are lists, `format_correction_output`
never raises even when required fields are absent; missing fields
render as empty slots (empty exercises list, empty heading, no
given-data line, empty question and answer text). -/
theorem c10_missing_fields_safe (d : PyVal) (h : wellShapedDyn d = true) :
    (∃ s, format_correction_output d = Except.ok s) ∧
    format_correction_output (.vdict []) = Except.ok "" ∧
    formatExercisePy (.vdict []) = Except.ok ["## ", "", "---", ""] ∧
    formatQuestionPy 1 (.vdict []) = Except.ok ["**1. **", "", "", "", ""] :=
  ⟨format_correction_output_shaped d h, rfl, rfl, rfl⟩

/-- C10 witness: the amended statement at a structurally incomplete
but type-correct input. -/
theorem c10_witness :
    ∃ s, format_correction_output
        (.vdict [("exercises", .vlist [.vdict [("exercise_name", .vstr "E")]])]) =
      Except.ok s :=
  (c10_missing_fields_safe
    (.vdict [("exercises", .vlist [.vdict [("exercise_name", .vstr "E")]])]) rfl).1

end ExCor
